import Mathlib

/-!
# Input-binding resource loader

A shallow embedding of `gamesys/src/gamesys/resources/res_input_binding.cpp`:
the three loader callbacks `ResInputBindingCreate`, `ResInputBindingDestroy`
and `ResInputBindingRecreate`.

The callbacks are glue code over two libraries whose sources are elsewhere in
the engine: the message decoder (`dmDDF`) and the input subsystem (`dmInput`).
Their functions are taken as parameters (`Externals`); every call a callback
makes to them is applied to an explicit state of the input subsystem and is
appended, in program order, to a call log.  Pointers are natural numbers, `0`
being the null pointer.
-/

set_option linter.unusedVariables false

/-- A `void*`: an address, `0` for the null pointer. -/
abbrev VoidPtr := Nat

namespace dmDDF

/-- Modelled from the spec: the result enum of the decoder is declared in
`ddf/ddf.h`; the loader only compares against `RESULT_OK`, every other value
of the enum is kept as its numeric code. -/
inductive Result where
  | RESULT_OK
  | RESULT_ERROR (code : Nat)
  deriving DecidableEq, Repr

end dmDDF

namespace dmResource

/-- Modelled from the spec: the result enum of the factory is declared in
`resource/resource.h`; "Result is a small enumerated set consumed by the
factory: OK, UNKNOWN_ERROR".  These are the two values the loader names. -/
inductive CreateResult where
  | CREATE_RESULT_OK
  | CREATE_RESULT_UNKNOWN
  deriving DecidableEq, Repr

/-- A factory handle. -/
abbrev HFactory := VoidPtr

/-- Modelled from the spec: the descriptor record is declared in
`resource/resource.h`; "Fields: opaque native-object reference, a type tag, a
reference count". -/
structure SResourceDescriptor where
  m_Resource : VoidPtr
  m_ResourceType : Nat
  m_ReferenceCount : Nat
  deriving DecidableEq, Repr

end dmResource

namespace dmInput

/-- A handle of an input context. -/
abbrev HContext := VoidPtr

/-- A handle of a binding, the native object of this resource type. -/
abbrev HBinding := VoidPtr

end dmInput

namespace dmGameSystem

open dmResource

/-- One call from the loader into `dmDDF` or `dmInput`, with its arguments.
`Msg` is the type of the value of the local `ddf` (the decoded message). -/
inductive Call (Msg : Type) where
  | LoadMessage (buffer : List Nat) (buffer_size : Nat)
  | NewBinding (context : dmInput.HContext)
  | SetBinding (binding : dmInput.HBinding) (ddf : Msg)
  | DeleteBinding (binding : dmInput.HBinding)
  | FreeMessage (ddf : Msg)
  deriving DecidableEq, Repr

/-- The library functions the loader calls, as functions of the state `I` of
the input subsystem.  `LoadMessage` yields its result code and the value the
out-parameter `ddf` has after the call; it has no access to the input
subsystem.  `SetBinding` and `DeleteBinding` return `void`. -/
structure Externals (I Msg : Type) where
  LoadMessage : List Nat → Nat → dmDDF.Result × Msg
  NewBinding : I → dmInput.HContext → dmInput.HBinding × I
  SetBinding : I → dmInput.HBinding → Msg → I
  DeleteBinding : I → dmInput.HBinding → I

/-- Everything outside the descriptor that a callback can change: the state of
the input subsystem and the log of the calls made so far. -/
structure World (I Msg : Type) where
  input : I
  calls : List (Call Msg)
  deriving DecidableEq, Repr

/-- What a callback leaves behind: its return value, the descriptor its
`resource` argument points to, and the world. -/
structure Outcome (I Msg : Type) where
  result : CreateResult
  resource : SResourceDescriptor
  world : World I Msg
  deriving DecidableEq, Repr

variable {I Msg : Type}

/-- Append one call to the log. -/
def World.log (w : World I Msg) (c : Call Msg) : World I Msg :=
  { w with calls := w.calls ++ [c] }

/-- The calls logged in `after` since `before`. -/
def World.since (before after : World I Msg) : List (Call Msg) :=
  after.calls.drop before.calls.length

/-- Calls that create, change or delete a binding. -/
def Call.touchesBinding : Call Msg → Bool
  | .NewBinding _ => true
  | .SetBinding _ _ => true
  | .DeleteBinding _ => true
  | _ => false

/-- The call is `dmInput::NewBinding`. -/
def Call.isNewBinding : Call Msg → Bool
  | .NewBinding _ => true
  | _ => false

/-- The call is `dmInput::DeleteBinding`. -/
def Call.isDeleteBinding : Call Msg → Bool
  | .DeleteBinding _ => true
  | _ => false

/-- The call is `dmDDF::FreeMessage`. -/
def Call.isFreeMessage : Call Msg → Bool
  | .FreeMessage _ => true
  | _ => false

/-- `dmDDF::LoadMessage(buffer, buffer_size, &DESCRIPTOR, &ddf)`. -/
def callLoadMessage (ext : Externals I Msg) (buffer : List Nat) (buffer_size : Nat)
    (w : World I Msg) : dmDDF.Result × Msg × World I Msg :=
  ((ext.LoadMessage buffer buffer_size).1, (ext.LoadMessage buffer buffer_size).2,
    w.log (.LoadMessage buffer buffer_size))

/-- `dmInput::NewBinding(context)`. -/
def callNewBinding (ext : Externals I Msg) (context : dmInput.HContext)
    (w : World I Msg) : dmInput.HBinding × World I Msg :=
  ((ext.NewBinding w.input context).1,
    { input := (ext.NewBinding w.input context).2, calls := w.calls ++ [.NewBinding context] })

/-- `dmInput::SetBinding(binding, ddf)`. -/
def callSetBinding (ext : Externals I Msg) (binding : dmInput.HBinding) (ddf : Msg)
    (w : World I Msg) : World I Msg :=
  { input := ext.SetBinding w.input binding ddf, calls := w.calls ++ [.SetBinding binding ddf] }

/-- `dmInput::DeleteBinding(binding)`. -/
def callDeleteBinding (ext : Externals I Msg) (binding : dmInput.HBinding)
    (w : World I Msg) : World I Msg :=
  { input := ext.DeleteBinding w.input binding, calls := w.calls ++ [.DeleteBinding binding] }

/-- `dmDDF::FreeMessage(ddf)`. -/
def callFreeMessage (ddf : Msg) (w : World I Msg) : World I Msg :=
  w.log (.FreeMessage ddf)

/-- `ResInputBindingCreate` (res_input_binding.cpp, lines 11-29). -/
def ResInputBindingCreate (ext : Externals I Msg) (factory : HFactory) (context : VoidPtr)
    (buffer : List Nat) (buffer_size : Nat) (resource : SResourceDescriptor)
    (filename : String) (w : World I Msg) : Outcome I Msg :=
  match callLoadMessage ext buffer buffer_size w with
  | (e, ddf, w1) =>
    if e ≠ dmDDF.Result.RESULT_OK then
      { result := .CREATE_RESULT_UNKNOWN, resource := resource, world := w1 }
    else
      match callNewBinding ext context w1 with
      | (binding, w2) =>
        let w3 := callSetBinding ext binding ddf w2
        let resource1 := { resource with m_Resource := binding }
        let w4 := callFreeMessage ddf w3
        { result := .CREATE_RESULT_OK, resource := resource1, world := w4 }

/-- `ResInputBindingDestroy` (res_input_binding.cpp, lines 31-37). -/
def ResInputBindingDestroy (ext : Externals I Msg) (factory : HFactory) (context : VoidPtr)
    (resource : SResourceDescriptor) (w : World I Msg) : Outcome I Msg :=
  let w1 := callDeleteBinding ext resource.m_Resource w
  { result := .CREATE_RESULT_OK, resource := resource, world := w1 }

/-- `ResInputBindingRecreate` (res_input_binding.cpp, lines 39-55). -/
def ResInputBindingRecreate (ext : Externals I Msg) (factory : HFactory) (context : VoidPtr)
    (buffer : List Nat) (buffer_size : Nat) (resource : SResourceDescriptor)
    (filename : String) (w : World I Msg) : Outcome I Msg :=
  match callLoadMessage ext buffer buffer_size w with
  | (e, ddf, w1) =>
    if e ≠ dmDDF.Result.RESULT_OK then
      { result := .CREATE_RESULT_UNKNOWN, resource := resource, world := w1 }
    else
      let binding : dmInput.HBinding := resource.m_Resource
      let w2 := callSetBinding ext binding ddf w1
      let w3 := callFreeMessage ddf w2
      { result := .CREATE_RESULT_OK, resource := resource, world := w3 }

/-- The arguments of one `ResInputBindingRecreate` call other than the
descriptor. -/
structure Reload where
  factory : HFactory
  context : VoidPtr
  buffer : List Nat
  buffer_size : Nat
  filename : String

/-- A reload history: the factory calls `ResInputBindingRecreate` on the same
descriptor once for each reload, in order. -/
def recreateAll (ext : Externals I Msg) :
    List Reload → SResourceDescriptor → World I Msg → SResourceDescriptor × World I Msg
  | [], d, w => (d, w)
  | r :: rs, d, w =>
    recreateAll ext rs
      (ResInputBindingRecreate ext r.factory r.context r.buffer r.buffer_size d r.filename w).resource
      (ResInputBindingRecreate ext r.factory r.context r.buffer r.buffer_size d r.filename w).world

/-! ## Two sample environments -/

namespace Sample

/-- A sample input subsystem: the live bindings, each with its handle, its
context and its table of mappings. -/
abbrev InputState := List (dmInput.HBinding × dmInput.HContext × List Nat)

/-- A sample decoder: a buffer of `buffer_size` bytes, not empty, decodes to
its bytes; anything else is a wire-format error and `ddf` is left empty. -/
def LoadMessage (buffer : List Nat) (buffer_size : Nat) : dmDDF.Result × List Nat :=
  if buffer_size = 0 ∨ buffer.length ≠ buffer_size then (.RESULT_ERROR 2, [])
  else (.RESULT_OK, buffer)

/-- A sample allocator: the new binding gets the next unused handle. -/
def NewBinding (s : InputState) (context : dmInput.HContext) : dmInput.HBinding × InputState :=
  (s.length + 1, s ++ [(s.length + 1, context, [])])

/-- Replace the table of the binding with the given handle. -/
def SetBinding (s : InputState) (binding : dmInput.HBinding) (ddf : List Nat) : InputState :=
  s.map fun b => if b.1 = binding then (b.1, b.2.1, ddf) else b

/-- Remove the binding with the given handle. -/
def DeleteBinding (s : InputState) (binding : dmInput.HBinding) : InputState :=
  s.filter fun b => b.1 ≠ binding

/-- The sample environment. -/
def env : Externals InputState (List Nat) :=
  { LoadMessage := LoadMessage, NewBinding := NewBinding,
    SetBinding := SetBinding, DeleteBinding := DeleteBinding }

/-- The sample environment with an allocator that is out of memory: it yields
the null handle and allocates nothing. -/
def envNoMemory : Externals InputState (List Nat) :=
  { env with NewBinding := fun s _ => (0, s) }

/-- A reload history: a good one-mapping buffer, a corrupt buffer, a good
three-mapping buffer. -/
def reloads : List Reload :=
  [{ factory := 0, context := 5, buffer := [40], buffer_size := 1, filename := "a" },
   { factory := 0, context := 5, buffer := [], buffer_size := 0, filename := "a" },
   { factory := 0, context := 5, buffer := [7, 8, 9], buffer_size := 3, filename := "a" }]

/-- An empty world. -/
def world0 : World InputState (List Nat) := { input := [], calls := [] }

/-- A descriptor as the factory hands it to `Create`: no native object yet. -/
def descriptor0 : SResourceDescriptor :=
  { m_Resource := 0, m_ResourceType := 7, m_ReferenceCount := 1 }

/-- A world with one live binding, handle `1`, of context `5`, with three
mappings. -/
def world1 : World InputState (List Nat) := { input := [(1, 5, [10, 20, 30])], calls := [] }

/-- A live descriptor: its native object is the binding of `world1`. -/
def descriptor1 : SResourceDescriptor :=
  { m_Resource := 1, m_ResourceType := 7, m_ReferenceCount := 2 }

end Sample

/-! ## Unfolding lemmas -/

section Lemmas

variable (ext : Externals I Msg) (factory : HFactory) (context : VoidPtr)
  (buffer : List Nat) (buffer_size : Nat) (resource : SResourceDescriptor)
  (filename : String) (w : World I Msg)

theorem since_append (i : I) (l : List (Call Msg)) :
    World.since w { input := i, calls := w.calls ++ l } = l := by
  simp [World.since]

theorem create_of_decode_failed (h : (ext.LoadMessage buffer buffer_size).1 ≠ .RESULT_OK) :
    ResInputBindingCreate ext factory context buffer buffer_size resource filename w =
      { result := .CREATE_RESULT_UNKNOWN, resource := resource,
        world := { input := w.input, calls := w.calls ++ [.LoadMessage buffer buffer_size] } } := by
  simp [ResInputBindingCreate, callLoadMessage, World.log, h]

theorem create_of_decode_ok (h : (ext.LoadMessage buffer buffer_size).1 = .RESULT_OK) :
    ResInputBindingCreate ext factory context buffer buffer_size resource filename w =
      { result := .CREATE_RESULT_OK,
        resource := { resource with m_Resource := (ext.NewBinding w.input context).1 },
        world :=
          { input := ext.SetBinding (ext.NewBinding w.input context).2
              (ext.NewBinding w.input context).1 (ext.LoadMessage buffer buffer_size).2,
            calls := w.calls ++
              [.LoadMessage buffer buffer_size, .NewBinding context,
               .SetBinding (ext.NewBinding w.input context).1 (ext.LoadMessage buffer buffer_size).2,
               .FreeMessage (ext.LoadMessage buffer buffer_size).2] } } := by
  simp [ResInputBindingCreate, callLoadMessage, callNewBinding, callSetBinding,
    callFreeMessage, World.log, h]

theorem recreate_of_decode_failed (h : (ext.LoadMessage buffer buffer_size).1 ≠ .RESULT_OK) :
    ResInputBindingRecreate ext factory context buffer buffer_size resource filename w =
      { result := .CREATE_RESULT_UNKNOWN, resource := resource,
        world := { input := w.input, calls := w.calls ++ [.LoadMessage buffer buffer_size] } } := by
  simp [ResInputBindingRecreate, callLoadMessage, World.log, h]

theorem recreate_of_decode_ok (h : (ext.LoadMessage buffer buffer_size).1 = .RESULT_OK) :
    ResInputBindingRecreate ext factory context buffer buffer_size resource filename w =
      { result := .CREATE_RESULT_OK, resource := resource,
        world :=
          { input := ext.SetBinding w.input resource.m_Resource
              (ext.LoadMessage buffer buffer_size).2,
            calls := w.calls ++
              [.LoadMessage buffer buffer_size,
               .SetBinding resource.m_Resource (ext.LoadMessage buffer buffer_size).2,
               .FreeMessage (ext.LoadMessage buffer buffer_size).2] } } := by
  simp [ResInputBindingRecreate, callLoadMessage, callSetBinding, callFreeMessage, World.log, h]

theorem destroy_eq :
    ResInputBindingDestroy ext factory context resource w =
      { result := .CREATE_RESULT_OK, resource := resource,
        world :=
          { input := ext.DeleteBinding w.input resource.m_Resource,
            calls := w.calls ++ [.DeleteBinding resource.m_Resource] } } := by
  simp [ResInputBindingDestroy, callDeleteBinding]

theorem recreate_resource :
    (ResInputBindingRecreate ext factory context buffer buffer_size resource filename w).resource
      = resource := by
  by_cases h : (ext.LoadMessage buffer buffer_size).1 = .RESULT_OK
  · rw [recreate_of_decode_ok ext factory context buffer buffer_size resource filename w h]
  · rw [recreate_of_decode_failed ext factory context buffer buffer_size resource filename w h]

theorem recreateAll_fst (reloads : List Reload) :
    (recreateAll ext reloads resource w).1 = resource := by
  induction reloads generalizing w with
  | nil => rfl
  | cons r rs ih => simp only [recreateAll, recreate_resource, ih]

theorem recreateAll_append (l1 l2 : List Reload) :
    recreateAll ext (l1 ++ l2) resource w =
      recreateAll ext l2 (recreateAll ext l1 resource w).1 (recreateAll ext l1 resource w).2 := by
  induction l1 generalizing resource w with
  | nil => rfl
  | cons r rs ih =>
    rw [List.cons_append]
    simp only [recreateAll]
    exact ih _ _

theorem recreateAll_take_succ (reloads : List Reload) (n : Nat) (hn : n < reloads.length) :
    recreateAll ext (reloads.take (n + 1)) resource w =
      ((ResInputBindingRecreate ext reloads[n].factory reloads[n].context reloads[n].buffer
          reloads[n].buffer_size (recreateAll ext (reloads.take n) resource w).1
          reloads[n].filename (recreateAll ext (reloads.take n) resource w).2).resource,
       (ResInputBindingRecreate ext reloads[n].factory reloads[n].context reloads[n].buffer
          reloads[n].buffer_size (recreateAll ext (reloads.take n) resource w).1
          reloads[n].filename (recreateAll ext (reloads.take n) resource w).2).world) := by
  rw [List.take_succ, List.getElem?_eq_getElem hn, Option.toList_some, recreateAll_append]
  rfl

end Lemmas

/-! ## The lifecycle contract -/

/-- C1: for every live descriptor and every buffer whose decode does not return
`RESULT_OK`, `ResInputBindingRecreate` returns `CREATE_RESULT_UNKNOWN`, the
descriptor (its native reference included) is exactly as it was, the state of
the input subsystem is unchanged, and the only call made is `LoadMessage`: no
`SetBinding`, `NewBinding` or `DeleteBinding`. -/
theorem recreate_decode_failure_is_safe (ext : Externals I Msg) (factory : HFactory)
    (context : VoidPtr) (buffer : List Nat) (buffer_size : Nat)
    (resource : SResourceDescriptor) (filename : String) (w : World I Msg)
    (h : (ext.LoadMessage buffer buffer_size).1 ≠ .RESULT_OK) :
    (ResInputBindingRecreate ext factory context buffer buffer_size resource filename w).result
        = .CREATE_RESULT_UNKNOWN ∧
    (ResInputBindingRecreate ext factory context buffer buffer_size resource filename w).resource
        = resource ∧
    (ResInputBindingRecreate ext factory context buffer buffer_size resource filename w).world.input
        = w.input ∧
    w.since (ResInputBindingRecreate ext factory context buffer buffer_size resource filename w).world
        = [.LoadMessage buffer buffer_size] ∧
    ∀ c ∈ w.since
        (ResInputBindingRecreate ext factory context buffer buffer_size resource filename w).world,
      c.touchesBinding = false := by
  rw [recreate_of_decode_failed ext factory context buffer buffer_size resource filename w h]
  simp [since_append, Call.touchesBinding]

/-- C1 at a corrupt (empty) buffer, on the live binding of the sample world. -/
theorem recreate_decode_failure_is_safe_witness :
    (Sample.env.LoadMessage [] 0).1 ≠ .RESULT_OK ∧
    ((ResInputBindingRecreate Sample.env 0 5 [] 0 Sample.descriptor1 "a" Sample.world1).result
        = .CREATE_RESULT_UNKNOWN ∧
    (ResInputBindingRecreate Sample.env 0 5 [] 0 Sample.descriptor1 "a" Sample.world1).resource
        = Sample.descriptor1 ∧
    (ResInputBindingRecreate Sample.env 0 5 [] 0 Sample.descriptor1 "a" Sample.world1).world.input
        = Sample.world1.input ∧
    Sample.world1.since
        (ResInputBindingRecreate Sample.env 0 5 [] 0 Sample.descriptor1 "a" Sample.world1).world
        = [.LoadMessage [] 0] ∧
    ∀ c ∈ Sample.world1.since
        (ResInputBindingRecreate Sample.env 0 5 [] 0 Sample.descriptor1 "a" Sample.world1).world,
      c.touchesBinding = false) :=
  ⟨by decide,
    recreate_decode_failure_is_safe Sample.env 0 5 [] 0 Sample.descriptor1 "a" Sample.world1
      (by decide)⟩

/-- C2: for every live descriptor with native reference `N` and every buffer
that decodes to a message `M`, `ResInputBindingRecreate` returns
`CREATE_RESULT_OK`, the descriptor still holds `N`, the input subsystem is
changed by `SetBinding(N, M)` and by nothing else, and the calls made are
`LoadMessage`, `SetBinding(N, M)`, `FreeMessage(M)`: no `NewBinding`, no
`DeleteBinding`. -/
theorem recreate_updates_in_place (ext : Externals I Msg) (factory : HFactory)
    (context : VoidPtr) (buffer : List Nat) (buffer_size : Nat)
    (resource : SResourceDescriptor) (filename : String) (w : World I Msg) (M : Msg)
    (h : ext.LoadMessage buffer buffer_size = (.RESULT_OK, M)) :
    (ResInputBindingRecreate ext factory context buffer buffer_size resource filename w).result
        = .CREATE_RESULT_OK ∧
    (ResInputBindingRecreate ext factory context buffer buffer_size resource filename
        w).resource.m_Resource = resource.m_Resource ∧
    (ResInputBindingRecreate ext factory context buffer buffer_size resource filename w).world.input
        = ext.SetBinding w.input resource.m_Resource M ∧
    w.since (ResInputBindingRecreate ext factory context buffer buffer_size resource filename w).world
        = [.LoadMessage buffer buffer_size, .SetBinding resource.m_Resource M, .FreeMessage M] ∧
    ∀ c ∈ w.since
        (ResInputBindingRecreate ext factory context buffer buffer_size resource filename w).world,
      c.isNewBinding = false ∧ c.isDeleteBinding = false := by
  have h1 : (ext.LoadMessage buffer buffer_size).1 = .RESULT_OK := by rw [h]
  have h2 : (ext.LoadMessage buffer buffer_size).2 = M := by rw [h]
  rw [recreate_of_decode_ok ext factory context buffer buffer_size resource filename w h1, h2]
  simp [since_append, Call.isNewBinding, Call.isDeleteBinding]

/-- C2 at a one-mapping buffer, on the live binding of the sample world. -/
theorem recreate_updates_in_place_witness :
    Sample.env.LoadMessage [40] 1 = (.RESULT_OK, [40]) ∧
    ((ResInputBindingRecreate Sample.env 0 5 [40] 1 Sample.descriptor1 "a" Sample.world1).result
        = .CREATE_RESULT_OK ∧
    (ResInputBindingRecreate Sample.env 0 5 [40] 1 Sample.descriptor1 "a"
        Sample.world1).resource.m_Resource = Sample.descriptor1.m_Resource ∧
    (ResInputBindingRecreate Sample.env 0 5 [40] 1 Sample.descriptor1 "a" Sample.world1).world.input
        = Sample.env.SetBinding Sample.world1.input Sample.descriptor1.m_Resource [40] ∧
    Sample.world1.since
        (ResInputBindingRecreate Sample.env 0 5 [40] 1 Sample.descriptor1 "a" Sample.world1).world
        = [.LoadMessage [40] 1, .SetBinding Sample.descriptor1.m_Resource [40],
           .FreeMessage [40]] ∧
    ∀ c ∈ Sample.world1.since
        (ResInputBindingRecreate Sample.env 0 5 [40] 1 Sample.descriptor1 "a" Sample.world1).world,
      c.isNewBinding = false ∧ c.isDeleteBinding = false) :=
  ⟨by decide,
    recreate_updates_in_place Sample.env 0 5 [40] 1 Sample.descriptor1 "a" Sample.world1 [40]
      (by decide)⟩

/-- C3: for every descriptor and every buffer whose decode does not return
`RESULT_OK`, `ResInputBindingCreate` returns `CREATE_RESULT_UNKNOWN`, every
field of the descriptor is as given, the input subsystem is unchanged, the
only call made is `LoadMessage`, and `NewBinding` is called zero times. -/
theorem create_decode_failure_is_clean (ext : Externals I Msg) (factory : HFactory)
    (context : VoidPtr) (buffer : List Nat) (buffer_size : Nat)
    (resource : SResourceDescriptor) (filename : String) (w : World I Msg)
    (h : (ext.LoadMessage buffer buffer_size).1 ≠ .RESULT_OK) :
    (ResInputBindingCreate ext factory context buffer buffer_size resource filename w).result
        = .CREATE_RESULT_UNKNOWN ∧
    (ResInputBindingCreate ext factory context buffer buffer_size resource filename w).resource
        = resource ∧
    (ResInputBindingCreate ext factory context buffer buffer_size resource filename w).world.input
        = w.input ∧
    w.since (ResInputBindingCreate ext factory context buffer buffer_size resource filename w).world
        = [.LoadMessage buffer buffer_size] ∧
    (w.since (ResInputBindingCreate ext factory context buffer buffer_size resource filename
        w).world).countP Call.isNewBinding = 0 := by
  rw [create_of_decode_failed ext factory context buffer buffer_size resource filename w h]
  simp [since_append, Call.isNewBinding]

/-- C3 at a buffer of length 0, on the empty sample world. -/
theorem create_decode_failure_is_clean_witness :
    (Sample.env.LoadMessage [] 0).1 ≠ .RESULT_OK ∧
    ((ResInputBindingCreate Sample.env 0 5 [] 0 Sample.descriptor0 "a" Sample.world0).result
        = .CREATE_RESULT_UNKNOWN ∧
    (ResInputBindingCreate Sample.env 0 5 [] 0 Sample.descriptor0 "a" Sample.world0).resource
        = Sample.descriptor0 ∧
    (ResInputBindingCreate Sample.env 0 5 [] 0 Sample.descriptor0 "a" Sample.world0).world.input
        = Sample.world0.input ∧
    Sample.world0.since
        (ResInputBindingCreate Sample.env 0 5 [] 0 Sample.descriptor0 "a" Sample.world0).world
        = [.LoadMessage [] 0] ∧
    (Sample.world0.since (ResInputBindingCreate Sample.env 0 5 [] 0 Sample.descriptor0 "a"
        Sample.world0).world).countP Call.isNewBinding = 0) :=
  ⟨by decide,
    create_decode_failure_is_clean Sample.env 0 5 [] 0 Sample.descriptor0 "a" Sample.world0
      (by decide)⟩

/-- C4: for every context and every buffer that decodes to a message `M`,
`ResInputBindingCreate` returns `CREATE_RESULT_OK`, calls `NewBinding(context)`
exactly once, yielding `b`, populates it with `SetBinding(b, M)`, and the
descriptor's `m_Resource` after the call is exactly `b`. -/
theorem create_constructs_one_binding (ext : Externals I Msg) (factory : HFactory)
    (context : VoidPtr) (buffer : List Nat) (buffer_size : Nat)
    (resource : SResourceDescriptor) (filename : String) (w : World I Msg) (M : Msg)
    (h : ext.LoadMessage buffer buffer_size = (.RESULT_OK, M)) :
    (ResInputBindingCreate ext factory context buffer buffer_size resource filename w).result
        = .CREATE_RESULT_OK ∧
    (ResInputBindingCreate ext factory context buffer buffer_size resource filename
        w).resource.m_Resource = (ext.NewBinding w.input context).1 ∧
    (ResInputBindingCreate ext factory context buffer buffer_size resource filename w).world.input
        = ext.SetBinding (ext.NewBinding w.input context).2 (ext.NewBinding w.input context).1 M ∧
    w.since (ResInputBindingCreate ext factory context buffer buffer_size resource filename w).world
        = [.LoadMessage buffer buffer_size, .NewBinding context,
           .SetBinding (ext.NewBinding w.input context).1 M, .FreeMessage M] ∧
    (w.since (ResInputBindingCreate ext factory context buffer buffer_size resource filename
        w).world).countP Call.isNewBinding = 1 := by
  have h1 : (ext.LoadMessage buffer buffer_size).1 = .RESULT_OK := by rw [h]
  have h2 : (ext.LoadMessage buffer buffer_size).2 = M := by rw [h]
  rw [create_of_decode_ok ext factory context buffer buffer_size resource filename w h1, h2]
  simp [since_append, Call.isNewBinding, List.countP_cons]

/-- C4 at a buffer with two mappings, on the empty sample world. -/
theorem create_constructs_one_binding_witness :
    Sample.env.LoadMessage [10, 20] 2 = (.RESULT_OK, [10, 20]) ∧
    ((ResInputBindingCreate Sample.env 0 5 [10, 20] 2 Sample.descriptor0 "a" Sample.world0).result
        = .CREATE_RESULT_OK ∧
    (ResInputBindingCreate Sample.env 0 5 [10, 20] 2 Sample.descriptor0 "a"
        Sample.world0).resource.m_Resource = (Sample.env.NewBinding Sample.world0.input 5).1 ∧
    (ResInputBindingCreate Sample.env 0 5 [10, 20] 2 Sample.descriptor0 "a"
        Sample.world0).world.input
        = Sample.env.SetBinding (Sample.env.NewBinding Sample.world0.input 5).2
            (Sample.env.NewBinding Sample.world0.input 5).1 [10, 20] ∧
    Sample.world0.since
        (ResInputBindingCreate Sample.env 0 5 [10, 20] 2 Sample.descriptor0 "a" Sample.world0).world
        = [.LoadMessage [10, 20] 2, .NewBinding 5,
           .SetBinding (Sample.env.NewBinding Sample.world0.input 5).1 [10, 20],
           .FreeMessage [10, 20]] ∧
    (Sample.world0.since (ResInputBindingCreate Sample.env 0 5 [10, 20] 2 Sample.descriptor0 "a"
        Sample.world0).world).countP Call.isNewBinding = 1) :=
  ⟨by decide,
    create_constructs_one_binding Sample.env 0 5 [10, 20] 2 Sample.descriptor0 "a" Sample.world0
      [10, 20] (by decide)⟩

/-- C5, as the spec states it, fails: with an allocator that yields the null
handle the buffer `[10, 20]` decodes, construction fails, and
`ResInputBindingCreate` still returns `CREATE_RESULT_OK`, not
`CREATE_RESULT_UNKNOWN`, after calling `SetBinding` on the null handle. -/
theorem create_ignores_construction_failure :
    (Sample.envNoMemory.LoadMessage [10, 20] 2).1 = .RESULT_OK ∧
    (Sample.envNoMemory.NewBinding Sample.world0.input 5).1 = 0 ∧
    (ResInputBindingCreate Sample.envNoMemory 0 5 [10, 20] 2 Sample.descriptor0 "a"
        Sample.world0).result = .CREATE_RESULT_OK ∧
    (ResInputBindingCreate Sample.envNoMemory 0 5 [10, 20] 2 Sample.descriptor0 "a"
        Sample.world0).result ≠ .CREATE_RESULT_UNKNOWN ∧
    Sample.world0.since (ResInputBindingCreate Sample.envNoMemory 0 5 [10, 20] 2
        Sample.descriptor0 "a" Sample.world0).world
      = [.LoadMessage [10, 20] 2, .NewBinding 5, .SetBinding 0 [10, 20], .FreeMessage [10, 20]] := by
  decide

/-- C5, amended: `ResInputBindingCreate` returns `CREATE_RESULT_OK` if and only
if the decode returns `RESULT_OK`, and `CREATE_RESULT_UNKNOWN` otherwise, in
which case the descriptor is as given.  The handle `NewBinding` yields is not
inspected: whatever it is, it is stored in `m_Resource`. -/
theorem create_ok_iff_decode_ok (ext : Externals I Msg) (factory : HFactory)
    (context : VoidPtr) (buffer : List Nat) (buffer_size : Nat)
    (resource : SResourceDescriptor) (filename : String) (w : World I Msg) :
    ((ResInputBindingCreate ext factory context buffer buffer_size resource filename w).result
        = .CREATE_RESULT_OK ↔ (ext.LoadMessage buffer buffer_size).1 = .RESULT_OK) ∧
    ((ResInputBindingCreate ext factory context buffer buffer_size resource filename w).result
        = .CREATE_RESULT_UNKNOWN ↔ (ext.LoadMessage buffer buffer_size).1 ≠ .RESULT_OK) ∧
    ((ext.LoadMessage buffer buffer_size).1 ≠ .RESULT_OK →
      (ResInputBindingCreate ext factory context buffer buffer_size resource filename w).resource
        = resource) ∧
    ((ext.LoadMessage buffer buffer_size).1 = .RESULT_OK →
      (ResInputBindingCreate ext factory context buffer buffer_size resource filename
        w).resource.m_Resource = (ext.NewBinding w.input context).1) := by
  by_cases h : (ext.LoadMessage buffer buffer_size).1 = .RESULT_OK
  · rw [create_of_decode_ok ext factory context buffer buffer_size resource filename w h]
    simp [h]
  · rw [create_of_decode_failed ext factory context buffer buffer_size resource filename w h]
    simp [h]

/-- C6: for every descriptor, factory and context, `ResInputBindingDestroy`
returns `CREATE_RESULT_OK` and calls `DeleteBinding` exactly once, on the
handle held in the descriptor's `m_Resource`; it makes no other call. -/
theorem destroy_always_ok_and_deletes_once (ext : Externals I Msg) (factory : HFactory)
    (context : VoidPtr) (resource : SResourceDescriptor) (w : World I Msg) :
    (ResInputBindingDestroy ext factory context resource w).result = .CREATE_RESULT_OK ∧
    w.since (ResInputBindingDestroy ext factory context resource w).world
        = [.DeleteBinding resource.m_Resource] ∧
    (w.since (ResInputBindingDestroy ext factory context resource w).world).countP
        Call.isDeleteBinding = 1 ∧
    (ResInputBindingDestroy ext factory context resource w).world.input
        = ext.DeleteBinding w.input resource.m_Resource := by
  rw [destroy_eq]
  simp [since_append, Call.isDeleteBinding]

/-- C8: in `ResInputBindingCreate` and in `ResInputBindingRecreate`, when
`LoadMessage` returns `RESULT_OK` with message `M`, `FreeMessage(M)` is called
exactly once, as the last call of the callback, right after `SetBinding`, the
last use of `M`; when `LoadMessage` fails, `FreeMessage` is not called. -/
theorem decoded_message_is_released (ext : Externals I Msg) (factory : HFactory)
    (context : VoidPtr) (buffer : List Nat) (buffer_size : Nat)
    (resource : SResourceDescriptor) (filename : String) (w : World I Msg) :
    ((ext.LoadMessage buffer buffer_size).1 = .RESULT_OK →
      w.since (ResInputBindingCreate ext factory context buffer buffer_size resource filename
          w).world
        = [.LoadMessage buffer buffer_size, .NewBinding context] ++
          [.SetBinding (ext.NewBinding w.input context).1 (ext.LoadMessage buffer buffer_size).2,
           .FreeMessage (ext.LoadMessage buffer buffer_size).2] ∧
      (w.since (ResInputBindingCreate ext factory context buffer buffer_size resource filename
          w).world).countP Call.isFreeMessage = 1 ∧
      w.since (ResInputBindingRecreate ext factory context buffer buffer_size resource filename
          w).world
        = [.LoadMessage buffer buffer_size] ++
          [.SetBinding resource.m_Resource (ext.LoadMessage buffer buffer_size).2,
           .FreeMessage (ext.LoadMessage buffer buffer_size).2] ∧
      (w.since (ResInputBindingRecreate ext factory context buffer buffer_size resource filename
          w).world).countP Call.isFreeMessage = 1) ∧
    ((ext.LoadMessage buffer buffer_size).1 ≠ .RESULT_OK →
      (w.since (ResInputBindingCreate ext factory context buffer buffer_size resource filename
          w).world).countP Call.isFreeMessage = 0 ∧
      (w.since (ResInputBindingRecreate ext factory context buffer buffer_size resource filename
          w).world).countP Call.isFreeMessage = 0) := by
  constructor
  · intro h
    rw [create_of_decode_ok ext factory context buffer buffer_size resource filename w h,
      recreate_of_decode_ok ext factory context buffer buffer_size resource filename w h]
    simp [since_append, Call.isFreeMessage, List.countP_cons]
  · intro h
    rw [create_of_decode_failed ext factory context buffer buffer_size resource filename w h,
      recreate_of_decode_failed ext factory context buffer buffer_size resource filename w h]
    simp [since_append, Call.isFreeMessage]

/-- C9, as the spec states it, fails: after a successful `Create` stored the
handle `1`, `ResInputBindingDestroy` deletes binding `1` and returns with
`m_Resource` still `1`, not null. -/
theorem destroy_does_not_clear_resource :
    (ResInputBindingCreate Sample.env 0 5 [10, 20] 2 Sample.descriptor0 "a" Sample.world0).result
        = .CREATE_RESULT_OK ∧
    (ResInputBindingCreate Sample.env 0 5 [10, 20] 2 Sample.descriptor0 "a"
        Sample.world0).resource.m_Resource = 1 ∧
    (ResInputBindingDestroy Sample.env 0 5
        (ResInputBindingCreate Sample.env 0 5 [10, 20] 2 Sample.descriptor0 "a"
          Sample.world0).resource
        (ResInputBindingCreate Sample.env 0 5 [10, 20] 2 Sample.descriptor0 "a"
          Sample.world0).world).resource.m_Resource = 1 ∧
    (ResInputBindingDestroy Sample.env 0 5
        (ResInputBindingCreate Sample.env 0 5 [10, 20] 2 Sample.descriptor0 "a"
          Sample.world0).resource
        (ResInputBindingCreate Sample.env 0 5 [10, 20] 2 Sample.descriptor0 "a"
          Sample.world0).world).resource.m_Resource ≠ 0 := by
  decide

/-- C9, amended: `ResInputBindingDestroy` does not write the descriptor: for
every descriptor, one populated by a successful `Create` included, after
`Destroy` returns `m_Resource` still holds the handle that was passed to
`DeleteBinding`. -/
theorem destroy_keeps_resource_field (ext : Externals I Msg) (factory : HFactory)
    (context : VoidPtr) (resource : SResourceDescriptor) (w : World I Msg) :
    (ResInputBindingDestroy ext factory context resource w).resource.m_Resource
        = resource.m_Resource ∧
    w.since (ResInputBindingDestroy ext factory context resource w).world
        = [.DeleteBinding
            (ResInputBindingDestroy ext factory context resource w).resource.m_Resource] := by
  rw [destroy_eq]
  simp [since_append]

/-- C10: for every input, `ResInputBindingCreate`, `ResInputBindingRecreate`
and `ResInputBindingDestroy` leave the type tag and the reference count of the
descriptor as they were; `Recreate` and `Destroy` leave the whole descriptor
as it was, and so does a `Create` that does not return `CREATE_RESULT_OK`:
only a successful `Create` writes `m_Resource`. -/
theorem loader_writes_only_resource_field (ext : Externals I Msg) (factory : HFactory)
    (context : VoidPtr) (buffer : List Nat) (buffer_size : Nat)
    (resource : SResourceDescriptor) (filename : String) (w : World I Msg) :
    ((ResInputBindingCreate ext factory context buffer buffer_size resource filename
        w).resource.m_ResourceType = resource.m_ResourceType ∧
      (ResInputBindingCreate ext factory context buffer buffer_size resource filename
        w).resource.m_ReferenceCount = resource.m_ReferenceCount) ∧
    ((ResInputBindingCreate ext factory context buffer buffer_size resource filename w).result
        ≠ .CREATE_RESULT_OK →
      (ResInputBindingCreate ext factory context buffer buffer_size resource filename w).resource
        = resource) ∧
    (ResInputBindingRecreate ext factory context buffer buffer_size resource filename w).resource
        = resource ∧
    (ResInputBindingDestroy ext factory context resource w).resource = resource := by
  refine ⟨?_, ?_, recreate_resource ext factory context buffer buffer_size resource filename w, ?_⟩
  · by_cases h : (ext.LoadMessage buffer buffer_size).1 = .RESULT_OK
    · rw [create_of_decode_ok ext factory context buffer buffer_size resource filename w h]
      simp
    · rw [create_of_decode_failed ext factory context buffer buffer_size resource filename w h]
      simp
  · by_cases h : (ext.LoadMessage buffer buffer_size).1 = .RESULT_OK
    · rw [create_of_decode_ok ext factory context buffer buffer_size resource filename w h]
      simp
    · rw [create_of_decode_failed ext factory context buffer buffer_size resource filename w h]
      simp
  · rw [destroy_eq]

/-- C7: for every descriptor on which `ResInputBindingCreate` succeeded,
storing the handle `b`, and every finite sequence of `ResInputBindingRecreate`
calls with arbitrary buffers, the descriptor's `m_Resource` is still `b` after
each call (after the first `n` calls, for every `n`), and each call whose
buffer fails to decode leaves the descriptor and the input subsystem, where
`b` lives, as they were before it, adding only its `LoadMessage` to the log. -/
theorem reload_history_preserves_identity (ext : Externals I Msg) (factory : HFactory)
    (context : VoidPtr) (buffer : List Nat) (buffer_size : Nat)
    (resource : SResourceDescriptor) (filename : String) (w : World I Msg)
    (hc : (ResInputBindingCreate ext factory context buffer buffer_size resource filename w).result
        = .CREATE_RESULT_OK)
    (reloads : List Reload) :
    (∀ n : Nat,
      (recreateAll ext (reloads.take n)
        (ResInputBindingCreate ext factory context buffer buffer_size resource filename w).resource
        (ResInputBindingCreate ext factory context buffer buffer_size resource filename w).world
        ).1.m_Resource
      = (ResInputBindingCreate ext factory context buffer buffer_size resource filename
          w).resource.m_Resource) ∧
    (∀ (n : Nat) (hn : n < reloads.length),
      (ext.LoadMessage reloads[n].buffer reloads[n].buffer_size).1 ≠ .RESULT_OK →
      (recreateAll ext (reloads.take (n + 1))
        (ResInputBindingCreate ext factory context buffer buffer_size resource filename w).resource
        (ResInputBindingCreate ext factory context buffer buffer_size resource filename w).world).1
      = (recreateAll ext (reloads.take n)
        (ResInputBindingCreate ext factory context buffer buffer_size resource filename w).resource
        (ResInputBindingCreate ext factory context buffer buffer_size resource filename w).world).1
      ∧
      (recreateAll ext (reloads.take (n + 1))
        (ResInputBindingCreate ext factory context buffer buffer_size resource filename w).resource
        (ResInputBindingCreate ext factory context buffer buffer_size resource filename w).world
        ).2.input
      = (recreateAll ext (reloads.take n)
        (ResInputBindingCreate ext factory context buffer buffer_size resource filename w).resource
        (ResInputBindingCreate ext factory context buffer buffer_size resource filename w).world
        ).2.input
      ∧
      (recreateAll ext (reloads.take (n + 1))
        (ResInputBindingCreate ext factory context buffer buffer_size resource filename w).resource
        (ResInputBindingCreate ext factory context buffer buffer_size resource filename w).world
        ).2.calls
      = (recreateAll ext (reloads.take n)
        (ResInputBindingCreate ext factory context buffer buffer_size resource filename w).resource
        (ResInputBindingCreate ext factory context buffer buffer_size resource filename w).world
        ).2.calls ++ [.LoadMessage reloads[n].buffer reloads[n].buffer_size]) := by
  constructor
  · intro n
    rw [recreateAll_fst]
  · intro n hn hfail
    rw [recreateAll_take_succ ext _ _ reloads n hn,
      recreate_of_decode_failed ext _ _ _ _ _ _ _ hfail]
    exact ⟨rfl, rfl, rfl⟩

/-- C7 on the sample history: `Create` with two mappings, then a good reload,
a corrupt one and another good one. -/
theorem reload_history_preserves_identity_witness :
    (ResInputBindingCreate Sample.env 0 5 [10, 20] 2 Sample.descriptor0 "a" Sample.world0).result
        = .CREATE_RESULT_OK ∧
    ((∀ n : Nat,
      (recreateAll Sample.env (Sample.reloads.take n)
        (ResInputBindingCreate Sample.env 0 5 [10, 20] 2 Sample.descriptor0 "a"
          Sample.world0).resource
        (ResInputBindingCreate Sample.env 0 5 [10, 20] 2 Sample.descriptor0 "a"
          Sample.world0).world).1.m_Resource
      = (ResInputBindingCreate Sample.env 0 5 [10, 20] 2 Sample.descriptor0 "a"
          Sample.world0).resource.m_Resource) ∧
    (∀ (n : Nat) (hn : n < Sample.reloads.length),
      (Sample.env.LoadMessage Sample.reloads[n].buffer Sample.reloads[n].buffer_size).1
        ≠ .RESULT_OK →
      (recreateAll Sample.env (Sample.reloads.take (n + 1))
        (ResInputBindingCreate Sample.env 0 5 [10, 20] 2 Sample.descriptor0 "a"
          Sample.world0).resource
        (ResInputBindingCreate Sample.env 0 5 [10, 20] 2 Sample.descriptor0 "a"
          Sample.world0).world).1
      = (recreateAll Sample.env (Sample.reloads.take n)
        (ResInputBindingCreate Sample.env 0 5 [10, 20] 2 Sample.descriptor0 "a"
          Sample.world0).resource
        (ResInputBindingCreate Sample.env 0 5 [10, 20] 2 Sample.descriptor0 "a"
          Sample.world0).world).1
      ∧
      (recreateAll Sample.env (Sample.reloads.take (n + 1))
        (ResInputBindingCreate Sample.env 0 5 [10, 20] 2 Sample.descriptor0 "a"
          Sample.world0).resource
        (ResInputBindingCreate Sample.env 0 5 [10, 20] 2 Sample.descriptor0 "a"
          Sample.world0).world).2.input
      = (recreateAll Sample.env (Sample.reloads.take n)
        (ResInputBindingCreate Sample.env 0 5 [10, 20] 2 Sample.descriptor0 "a"
          Sample.world0).resource
        (ResInputBindingCreate Sample.env 0 5 [10, 20] 2 Sample.descriptor0 "a"
          Sample.world0).world).2.input
      ∧
      (recreateAll Sample.env (Sample.reloads.take (n + 1))
        (ResInputBindingCreate Sample.env 0 5 [10, 20] 2 Sample.descriptor0 "a"
          Sample.world0).resource
        (ResInputBindingCreate Sample.env 0 5 [10, 20] 2 Sample.descriptor0 "a"
          Sample.world0).world).2.calls
      = (recreateAll Sample.env (Sample.reloads.take n)
        (ResInputBindingCreate Sample.env 0 5 [10, 20] 2 Sample.descriptor0 "a"
          Sample.world0).resource
        (ResInputBindingCreate Sample.env 0 5 [10, 20] 2 Sample.descriptor0 "a"
          Sample.world0).world).2.calls
        ++ [.LoadMessage Sample.reloads[n].buffer Sample.reloads[n].buffer_size])) :=
  ⟨by decide,
    reload_history_preserves_identity Sample.env 0 5 [10, 20] 2 Sample.descriptor0 "a"
      Sample.world0 (by decide) Sample.reloads⟩

end dmGameSystem
